import Mathlib

/-!
Verification of the SpatialMerge record-linkage pipeline.

Shallow embedding of the core pipeline of the repository:
  - `matching.py` : `perform_spatial_matching`, `perform_road_based_matching`,
    `filter_and_select_matches`
  - `output.py`   : `create_output_dataframe`
  - `main.py`     : `merge_msd_lmd` (spatial path with early returns)
  - `gui.py`      : the strategy-selection logic of `MergeWorker.run`
  - `data_preparation.py` : the lane normalisation / vocabulary filtering step
    of `prepare_lmd_data`

Modelling conventions:
  - Numeric values (timestamps in seconds, chainage and distances in meters,
    the "Start/End Chainage (km)" columns in kilometers) are exact integers
    `Int`; the Python code uses floats, whose rounding is not modelled.
  - Nullable columns are `Option _`; polars comparisons against null yield
    null, which `filter` drops: this Kleene behaviour is modelled explicitly
    (`optEqS`, `orK`, and `Option Bool` conditions).
  - A polars DataFrame is a list of rows plus the schema facts the code
    branches on.  All pair DataFrames produced by the candidate generators
    carry the `Lane/Time/Chain/RoadName` columns of both sides, so only the
    presence of `spatial_dist_m` is kept as a schema flag; the `time_diff`
    column is present exactly when `has_valid_time_data` held, and the
    `chainage_diff` column is always present.
  - `BallTree.query` returns neighbours ordered by ascending haversine
    distance; the haversine distance itself (a fixed function of the two
    coordinate pairs, compared against `max_spatial_dist_m / EARTH_RADIUS_M`
    and then rescaled by `EARTH_RADIUS_M`) is abstracted as a distance
    function `dist` in meters, which preserves every comparison the code
    performs.
  - `DataFrame.sort(column)` (polars default `maintain_order=False`)
    guarantees only a sorted permutation; the executable model uses a stable
    insertion sort `stableSortBy` as one admissible outcome, and the full
    contract is captured by the relation `UnstableSortOutcome`.
  - `group_by(key).first()` keeps, for every key, the first row of the frame
    with that key (`groupByFirst`).
-/

namespace SpatialMerge

/-- One row of the prepared MSD (base) table: `prepare_msd_data` guarantees
`Lat`, `Lon` and `Chain` non-null and adds the row index `msd_idx`; `Lane`,
`RoadName`, `TestDateUTC_parsed` (here `Time`) and the road-matching ids stay
nullable. Coordinates enter only through the abstracted distance function and
are not stored. -/
structure MsdRow where
  msd_idx : Nat
  Lane : Option String
  Time : Option Int
  Chain : Int
  RoadName : Option String
  road_id : Option String
  region_id : Option String
deriving DecidableEq

/-- One row of the prepared LMD (auxiliary) table.  `Lane` is the normalised
lane column, `Lanes` the raw untouched "Lanes" column used by road-based
matching, `startChainKm`/`endChainKm` the parse results of
"Start/End Chainage (km)" (`none` models a `float()` failure). -/
structure LmdRow where
  lmd_idx : Nat
  Lane : Option String
  Lanes : Option String
  Time : Option Int
  Chain : Int
  RoadName : Option String
  road_id : Option String
  region_id : Option String
  startChainKm : Option Int
  endChainKm : Option Int
deriving DecidableEq

/-- A candidate-pair row as built by the generators in `matching.py`:
indices of both rows, the joined `Lane/Time/Chain/RoadName` columns of both
sides and, for spatial candidates, the `spatial_dist_m` column. -/
structure PairRow where
  msd_idx : Nat
  lmd_idx : Nat
  Lane_msd : Option String
  Lane_lmd : Option String
  Time_msd : Option Int
  Time_lmd : Option Int
  Chain_msd : Int
  Chain_lmd : Int
  RoadName_msd : Option String
  RoadName_lmd : Option String
  spatial_dist_m : Option Int
deriving DecidableEq

/-- A pairs DataFrame: rows plus the one schema fact the filtering code
branches on, namely whether the `spatial_dist_m` column exists (it does
exactly when the pairs came from `perform_spatial_matching`). -/
structure PairsDF where
  hasSpatialCol : Bool
  rows : List PairRow
deriving DecidableEq

/-- Polars equality of two nullable strings: null if either side is null
(Kleene semantics of `pl.col(a) == pl.col(b)`). -/
def optEqS (a b : Option String) : Option Bool :=
  match a, b with
  | some x, some y => some (x == y)
  | _, _ => none

/-- Kleene disjunction on nullable booleans (`|` between polars expressions). -/
def orK (a b : Option Bool) : Option Bool :=
  match a, b with
  | some true, _ => some true
  | _, some true => some true
  | some false, some false => some false
  | _, _ => none

/-- The `time_diff` column: `(Time_msd - Time_lmd).abs()`, null when either
timestamp is null. -/
def time_diff (r : PairRow) : Option Int :=
  match r.Time_msd, r.Time_lmd with
  | some t1, some t2 => some |t1 - t2|
  | _, _ => none

/-- The `chainage_diff` column: `(Chain_msd - Chain_lmd).abs()`; the prepared
tables have non-null `Chain`, so it is never null. -/
def chainage_diff (r : PairRow) : Int :=
  |r.Chain_msd - r.Chain_lmd|

/-- The `has_valid_time_data` check of `filter_and_select_matches`: both time columns
exist with datetime dtype (always true for generated pairs) and each has at
least one non-null entry (`null_count() < len`). -/
def has_valid_time_data (df : PairsDF) : Bool :=
  decide (df.rows.countP (fun r => r.Time_msd.isNone) < df.rows.length) &&
  decide (df.rows.countP (fun r => r.Time_lmd.isNone) < df.rows.length)

/-- The lane condition of `filter_and_select_matches`: when `enable_road` is
set (the `Lane_lmd` column always exists on generated pairs), LMD lane `"ALL"`
matches any MSD lane, otherwise exact equality is required. -/
def laneCond (enable_road : Bool) (r : PairRow) : Option Bool :=
  if enable_road then
    orK (optEqS r.Lane_lmd (some "ALL")) (optEqS r.Lane_msd r.Lane_lmd)
  else
    optEqS r.Lane_msd r.Lane_lmd

/-- The time condition `time_diff <= duration(seconds=max_time_diff_sec)`. -/
def timeCond (maxT : Int) (r : PairRow) : Option Bool :=
  (time_diff r).map (fun d => decide (d ≤ maxT))

/-- The chainage condition `chainage_diff <= max_chainage_diff_m`. -/
def chainCond (maxC : Int) (r : PairRow) : Option Bool :=
  some (decide (chainage_diff r ≤ maxC))

/-- The road-name condition `RoadName_msd == RoadName_lmd`. -/
def roadNameCond (r : PairRow) : Option Bool :=
  optEqS r.RoadName_msd r.RoadName_lmd

/-- The list of filter conditions assembled by `filter_and_select_matches`
for one row, given `has_valid_time_data` and the three enable flags. -/
def rowConds (hvt et er es : Bool) (maxT maxC : Int) (r : PairRow) :
    List (Option Bool) :=
  [laneCond er r]
  ++ (if et && hvt then [timeCond maxT r] else [])
  ++ (if er && !(es || et) then [roadNameCond r]
      else if er then [chainCond maxC r, roadNameCond r]
      else [])

/-- Polars `pl.all_horizontal(conditions)` is true (and `filter` keeps the row)
exactly when every condition is true; nulls and falses both drop the row. -/
def keepRow (hvt et er es : Bool) (maxT maxC : Int) (r : PairRow) : Bool :=
  (rowConds hvt et er es maxT maxC r).all (fun c => c == some true)

/-- The filtering stage of `filter_and_select_matches`. -/
def filterRows (df : PairsDF) (maxT maxC : Int) (et er es : Bool) :
    List PairRow :=
  df.rows.filter (keepRow (has_valid_time_data df) et er es maxT maxC)

/-- Comparison on a nullable sort key; polars sorts nulls first by default. -/
def optLE (a b : Option Int) : Bool :=
  match a, b with
  | none, _ => true
  | some _, none => false
  | some x, some y => decide (x ≤ y)

/-- Insert into a sorted list in front of the first element not below `a`:
the insertion step of a stable sort. -/
def insertLe {α : Type} (le : α → α → Bool) (a : α) : List α → List α
  | [] => [a]
  | b :: bs => if le a b then a :: b :: bs else b :: insertLe le a bs

/-- Stable insertion sort: one admissible outcome of `DataFrame.sort`
(ties keep their original relative order). -/
def stableSortBy {α : Type} (le : α → α → Bool) : List α → List α
  | [] => []
  | a :: as => insertLe le a (stableSortBy le as)

/-- The sort key chosen by `filter_and_select_matches`: `time_diff` when time
matching is enabled and the column exists (i.e. `has_valid_time_data`), else
`chainage_diff` when road matching is enabled (that column always exists),
else `spatial_dist_m` when spatial matching is enabled and the column exists,
else no sorting. -/
def sortKeyFn (df : PairsDF) (et er es : Bool) : Option (PairRow → Option Int) :=
  if et && has_valid_time_data df then some time_diff
  else if er then some (fun r => some (chainage_diff r))
  else if es && df.hasSpatialCol then some (fun r => r.spatial_dist_m)
  else none

/-- The `group_by("msd_idx").first()` step: keep for each `msd_idx` the first row of
the frame carrying it (accumulator of already seen keys). -/
def groupByFirstAux (seen : List Nat) : List PairRow → List PairRow
  | [] => []
  | r :: rs =>
    if r.msd_idx ∈ seen then groupByFirstAux seen rs
    else r :: groupByFirstAux (r.msd_idx :: seen) rs

/-- The `group_by("msd_idx").first()` step over a whole frame. -/
def groupByFirst (rows : List PairRow) : List PairRow :=
  groupByFirstAux [] rows

/-- The model of `filter_and_select_matches`: filter the pairs, then per `msd_idx` keep
the first row after sorting by the chosen key (no sort when no key applies).
Returns the rows of the best-matches frame. -/
def filter_and_select_matches (df : PairsDF) (maxT maxC : Int)
    (et er es : Bool) : List PairRow :=
  let filtered := filterRows df maxT maxC et er es
  match sortKeyFn df et er es with
  | some key => groupByFirst (stableSortBy (fun a b => optLE (key a) (key b)) filtered)
  | none => groupByFirst filtered

/-- Pair row built by `perform_spatial_matching` (joins the prepared `Lane`
column of both sides and records the distance in meters). -/
def mkSpatialPair (dist : MsdRow → LmdRow → Int) (m : MsdRow) (l : LmdRow) :
    PairRow :=
  { msd_idx := m.msd_idx, lmd_idx := l.lmd_idx,
    Lane_msd := m.Lane, Lane_lmd := l.Lane,
    Time_msd := m.Time, Time_lmd := l.Time,
    Chain_msd := m.Chain, Chain_lmd := l.Chain,
    RoadName_msd := m.RoadName, RoadName_lmd := l.RoadName,
    spatial_dist_m := some (dist m l) }

/-- The model of `perform_spatial_matching`: for every MSD row, all LMD rows within
`maxDist`, ordered by ascending distance (the BallTree query order). -/
def perform_spatial_matching (dist : MsdRow → LmdRow → Int)
    (msd : List MsdRow) (lmd : List LmdRow) (maxDist : Int) : PairsDF :=
  { hasSpatialCol := true,
    rows := msd.flatMap (fun m =>
      (stableSortBy (fun l1 l2 => decide (dist m l1 ≤ dist m l2))
          (lmd.filter (fun l => decide (dist m l ≤ maxDist)))).map
        (mkSpatialPair dist m)) }

/-- Road/region key equality used by `perform_road_based_matching`
(`msd_groups` dict lookup; in Python `None` keys are equal to `None`). -/
def roadKeyMatches (m : MsdRow) (l : LmdRow) : Bool :=
  m.road_id == l.road_id && m.region_id == l.region_id

/-- Pair row built by `perform_road_based_matching`: the LMD side of the lane
column comes from the raw `Lanes` column, not the normalised `Lane`.  (The
join also carries `road_id`/`region_id`/chainage-range columns which nothing
downstream reads; they are omitted.) -/
def mkRoadPair (m : MsdRow) (l : LmdRow) : PairRow :=
  { msd_idx := m.msd_idx, lmd_idx := l.lmd_idx,
    Lane_msd := m.Lane, Lane_lmd := l.Lanes,
    Time_msd := m.Time, Time_lmd := l.Time,
    Chain_msd := m.Chain, Chain_lmd := l.Chain,
    RoadName_msd := m.RoadName, RoadName_lmd := l.RoadName,
    spatial_dist_m := none }

/-- The model of `perform_road_based_matching`: for every LMD row with parseable
start/end chainage (malformed rows are skipped, logged, not fatal), every MSD
row with the same `road_id`/`region_id` whose `Chain` lies in
`[start*1000, end*1000]` inclusive. -/
def perform_road_based_matching (msd : List MsdRow) (lmd : List LmdRow) :
    PairsDF :=
  { hasSpatialCol := false,
    rows := lmd.flatMap (fun l =>
      match l.startChainKm, l.endChainKm with
      | some s, some e =>
        (msd.filter (fun m => roadKeyMatches m l
            && decide (s * 1000 ≤ m.Chain)
            && decide (m.Chain ≤ e * 1000))).map (fun m => mkRoadPair m l)
      | _, _ => []) }

/-- The fixed lane vocabulary `VALID_LANES` of `config.py`. -/
def VALID_LANES : List String := ["L1", "R1", "L2", "R2", "LSK1", "RSK1"]

/-- The lane normalisation of `prepare_lmd_data`: on the `Lane` column map
`"1"` to `"L1"` and `"2"` to `"L2"`, touch nothing else; the raw `Lanes`
column is not involved. -/
def normalizeLaneRow (r : LmdRow) : LmdRow :=
  { r with Lane := r.Lane.map (fun s =>
      if s == "1" then "L1" else if s == "2" then "L2" else s) }

/-- The vocabulary test `pl.col("Lane").is_in(VALID_LANES)`: null lanes are dropped too. -/
def laneIsValid (lane : Option String) : Bool :=
  match lane with
  | some s => VALID_LANES.contains s
  | none => false

/-- The lane step of `prepare_lmd_data`: normalise the `Lane` column, then
keep only rows whose `Lane` is in the vocabulary. -/
def prepare_lmd_lane (rows : List LmdRow) : List LmdRow :=
  (rows.map normalizeLaneRow).filter (fun r => laneIsValid r.Lane)

/-- One row of the assembled output: the base row, the matched pair row when
one exists (carrying the metric columns), and the joined LMD row for the
selected auxiliary columns. -/
structure OutputRow where
  base : MsdRow
  matched : Option PairRow
  lmdPayload : Option LmdRow
deriving DecidableEq

/-- The model of `create_output_dataframe`: start from every MSD row, left-join the best
matches on `msd_idx`, then left-join the selected LMD columns on `lmd_idx`
(null keys match nothing; duplicate keys would multiply rows, as in polars). -/
def create_output_dataframe (best : List PairRow) (msd : List MsdRow)
    (lmd : List LmdRow) : List OutputRow :=
  msd.flatMap (fun m =>
    match best.filter (fun b => b.msd_idx == m.msd_idx) with
    | [] => [{ base := m, matched := none, lmdPayload := none }]
    | bs => bs.flatMap (fun b =>
        match lmd.filter (fun l => l.lmd_idx == b.lmd_idx) with
        | [] => [{ base := m, matched := some b, lmdPayload := none }]
        | ls => ls.map (fun l =>
            { base := m, matched := some b, lmdPayload := some l })))

/-- The model of `merge_msd_lmd` of `main.py` (spatial path, default enable flags): if the
candidate set is empty the function returns early with no output at all, and
likewise when no pair survives filtering; only otherwise is the output frame
assembled. -/
def merge_msd_lmd (dist : MsdRow → LmdRow → Int) (msd : List MsdRow)
    (lmd : List LmdRow) (maxT maxC maxDist : Int) :
    Option (List OutputRow) :=
  let pairs := perform_spatial_matching dist msd lmd maxDist
  if pairs.rows.isEmpty then none
  else
    let best := filter_and_select_matches pairs maxT maxC true true true
    if best.isEmpty then none
    else some (create_output_dataframe best msd lmd)

/-- The candidate-generation strategies reachable in `MergeWorker.run`. -/
inductive Strategy
  | spatial
  | roadBased
  | roadGroupedPairs
  | cartesianPairs
deriving DecidableEq

/-- The strategy selection of `MergeWorker.run` (`gui.py`): `force_spatial`
when spatial is disabled but the pair count exceeds the 10,000,000 guard;
`force_road_matching` when spatial is requested without coordinates; spatial
when (requested or forced) and coordinates exist; else road-based when its
columns exist; else `create_all_pairs` grouped by road/lane when the road
criterion (or forced road matching) is on, else the full cartesian product.
No branch reports a configuration error. -/
def chooseStrategy (enable_spatial enable_road has_coordinates has_road_cols : Bool)
    (msd_len lmd_len : Nat) : Strategy :=
  let max_pairs := msd_len * lmd_len
  let force_spatial := !enable_spatial && decide (10000000 < max_pairs)
  let force_road := enable_spatial && !has_coordinates
  let use_spatial := (enable_spatial || force_spatial) && has_coordinates && !force_road
  if use_spatial then .spatial
  else if has_road_cols then .roadBased
  else if enable_road || force_road then .roadGroupedPairs
  else .cartesianPairs

/-! ### Lemmas about the stable sort -/

theorem insertLe_perm {α : Type} (le : α → α → Bool) (a : α) (l : List α) :
    (insertLe le a l).Perm (a :: l) := by
  induction l with
  | nil => simp [insertLe]
  | cons b bs ih =>
    by_cases h : le a b
    · simp [insertLe, h]
    · simp only [insertLe, h, if_neg, Bool.false_eq_true, not_false_iff]
      exact (ih.cons b).trans (List.Perm.swap a b bs)

theorem stableSortBy_perm {α : Type} (le : α → α → Bool) (l : List α) :
    (stableSortBy le l).Perm l := by
  induction l with
  | nil => simp [stableSortBy]
  | cons a as ih =>
    exact (insertLe_perm le a (stableSortBy le as)).trans (ih.cons a)

theorem mem_insertLe {α : Type} {le : α → α → Bool} {a x : α} {l : List α} :
    x ∈ insertLe le a l ↔ x = a ∨ x ∈ l := by
  rw [(insertLe_perm le a l).mem_iff]
  simp

theorem insertLe_sorted {α : Type} {le : α → α → Bool}
    (htrans : ∀ a b c, le a b = true → le b c = true → le a c = true)
    (htot : ∀ a b, le a b = true ∨ le b a = true)
    (a : α) {l : List α} (h : l.Pairwise (fun x y => le x y = true)) :
    (insertLe le a l).Pairwise (fun x y => le x y = true) := by
  induction l with
  | nil => simp [insertLe]
  | cons b bs ih =>
    rcases List.pairwise_cons.mp h with ⟨hb, hbs⟩
    by_cases hab : le a b
    · simp only [insertLe, hab, if_pos]
      refine List.pairwise_cons.mpr ⟨?_, h⟩
      intro y hy
      rcases List.mem_cons.mp hy with rfl | hy
      · exact hab
      · exact htrans a b y hab (hb y hy)
    · simp only [insertLe, hab, if_neg, Bool.not_eq_true]
      refine List.pairwise_cons.mpr ⟨?_, ih hbs⟩
      intro y hy
      rcases mem_insertLe.mp hy with h2 | hy
      · rw [h2]
        rcases htot a b with h1 | h1
        · exact absurd h1 (by simpa using hab)
        · exact h1
      · exact hb y hy

theorem stableSortBy_sorted {α : Type} {le : α → α → Bool}
    (htrans : ∀ a b c, le a b = true → le b c = true → le a c = true)
    (htot : ∀ a b, le a b = true ∨ le b a = true) (l : List α) :
    (stableSortBy le l).Pairwise (fun x y => le x y = true) := by
  induction l with
  | nil => simp [stableSortBy]
  | cons a as ih => exact insertLe_sorted htrans htot a ih

theorem optLE_trans : ∀ a b c, optLE a b = true → optLE b c = true →
    optLE a c = true := by
  intro a b c h1 h2
  cases a <;> cases b <;> cases c <;> simp_all [optLE] <;> omega

theorem optLE_total : ∀ a b, optLE a b = true ∨ optLE b a = true := by
  intro a b
  cases a <;> cases b <;> simp_all [optLE] <;> omega

/-! ### Lemmas about group-by-first -/

theorem groupByFirstAux_mem {l : List PairRow} :
    ∀ {seen : List Nat} {x : PairRow}, x ∈ groupByFirstAux seen l → x ∈ l := by
  induction l with
  | nil => intro seen x h; simpa [groupByFirstAux] using h
  | cons r rs ih =>
    intro seen x h
    by_cases hc : r.msd_idx ∈ seen
    · simp only [groupByFirstAux, hc, if_pos] at h
      exact List.mem_cons_of_mem _ (ih h)
    · simp only [groupByFirstAux, hc, if_neg, not_false_iff] at h
      rcases List.mem_cons.mp h with rfl | h
      · exact List.mem_cons_self _ _
      · exact List.mem_cons_of_mem _ (ih h)

theorem groupByFirstAux_not_seen {l : List PairRow} :
    ∀ {seen : List Nat} {x : PairRow}, x ∈ groupByFirstAux seen l →
      x.msd_idx ∉ seen := by
  induction l with
  | nil => intro seen x h; simp [groupByFirstAux] at h
  | cons r rs ih =>
    intro seen x h
    by_cases hc : r.msd_idx ∈ seen
    · simp only [groupByFirstAux, hc, if_pos] at h
      exact ih h
    · simp only [groupByFirstAux, hc, if_neg, not_false_iff] at h
      rcases List.mem_cons.mp h with rfl | h
      · exact hc
      · intro hx
        exact ih h (List.mem_cons_of_mem _ hx)

theorem groupByFirstAux_keys_nodup (l : List PairRow) :
    ∀ seen : List Nat, ((groupByFirstAux seen l).map PairRow.msd_idx).Nodup := by
  induction l with
  | nil => intro seen; simp [groupByFirstAux]
  | cons r rs ih =>
    intro seen
    by_cases hc : r.msd_idx ∈ seen
    · simpa only [groupByFirstAux, hc, if_pos] using ih seen
    · simp only [groupByFirstAux, hc, if_neg, not_false_iff, List.map_cons]
      refine List.nodup_cons.mpr ⟨?_, ih _⟩
      intro hmem
      rcases List.mem_map.mp hmem with ⟨y, hy, hyx⟩
      exact groupByFirstAux_not_seen hy (by simp [hyx])

theorem groupByFirstAux_keys_covers {l : List PairRow} :
    ∀ {seen : List Nat} {k : Nat}, k ∈ l.map PairRow.msd_idx → k ∉ seen →
      k ∈ (groupByFirstAux seen l).map PairRow.msd_idx := by
  induction l with
  | nil => intro seen k h _; simp at h
  | cons r rs ih =>
    intro seen k h hk
    rw [List.map_cons] at h
    by_cases hc : r.msd_idx ∈ seen
    · simp only [groupByFirstAux, hc, if_pos]
      rcases List.mem_cons.mp h with rfl | h
      · exact absurd hc hk
      · exact ih h hk
    · simp only [groupByFirstAux, hc, if_neg, not_false_iff, List.map_cons]
      rcases List.mem_cons.mp h with rfl | h
      · exact List.mem_cons_self _ _
      · by_cases hkr : k = r.msd_idx
        · subst hkr; exact List.mem_cons_self _ _
        · refine List.mem_cons_of_mem _ (ih h ?_)
          simp [hkr, hk]

theorem groupByFirst_mem {l : List PairRow} {x : PairRow}
    (h : x ∈ groupByFirst l) : x ∈ l :=
  groupByFirstAux_mem h

theorem groupByFirst_keys_nodup (l : List PairRow) :
    ((groupByFirst l).map PairRow.msd_idx).Nodup :=
  groupByFirstAux_keys_nodup l []

theorem groupByFirst_keys_iff {l : List PairRow} {k : Nat} :
    k ∈ (groupByFirst l).map PairRow.msd_idx ↔ k ∈ l.map PairRow.msd_idx := by
  constructor
  · intro h
    rcases List.mem_map.mp h with ⟨y, hy, hyx⟩
    exact hyx ▸ List.mem_map_of_mem _ (groupByFirst_mem hy)
  · intro h
    exact groupByFirstAux_keys_covers h (by simp)

theorem groupByFirst_length (l : List PairRow) :
    (groupByFirst l).length = (l.map PairRow.msd_idx).toFinset.card := by
  have h1 : (groupByFirst l).length = ((groupByFirst l).map PairRow.msd_idx).length := by
    simp
  have h2 : ((groupByFirst l).map PairRow.msd_idx).toFinset =
      (l.map PairRow.msd_idx).toFinset := by
    ext k
    simp only [List.mem_toFinset]
    exact groupByFirst_keys_iff
  rw [h1, ← List.toFinset_card_of_nodup (groupByFirst_keys_nodup l), h2]

theorem groupByFirstAux_find {l : List PairRow} :
    ∀ {seen : List Nat} {x : PairRow}, x ∈ groupByFirstAux seen l →
      l.find? (fun s => s.msd_idx == x.msd_idx) = some x := by
  induction l with
  | nil => intro seen x h; simp [groupByFirstAux] at h
  | cons r rs ih =>
    intro seen x h
    by_cases hc : r.msd_idx ∈ seen
    · simp only [groupByFirstAux, hc, if_pos] at h
      have hne : r.msd_idx ≠ x.msd_idx := by
        intro he
        exact groupByFirstAux_not_seen h (he ▸ hc)
      rw [List.find?_cons_of_neg _ (by simpa using hne)]
      exact ih h
    · simp only [groupByFirstAux, hc, if_neg, not_false_iff] at h
      rcases List.mem_cons.mp h with rfl | h
      · exact List.find?_cons_of_pos _ (by simp)
      · have hne : r.msd_idx ≠ x.msd_idx := by
          intro he
          exact groupByFirstAux_not_seen h (by simp [he])
        rw [List.find?_cons_of_neg _ (by simpa using hne)]
        exact ih h

theorem groupByFirst_min_of_sorted {key : PairRow → Option Int}
    {l : List PairRow}
    (hs : l.Pairwise (fun a b => optLE (key a) (key b) = true))
    {x : PairRow} (hx : x ∈ groupByFirst l) :
    ∀ s ∈ l, s.msd_idx = x.msd_idx → optLE (key x) (key s) = true := by
  intro s hs' hidx
  have hfind := groupByFirstAux_find (l := l) hx
  -- walk down the list: x is the first element with its key,
  -- so s is x itself or occurs after x in the sorted list
  clear hx
  induction l with
  | nil => simp at hs'
  | cons r rs ih =>
    rcases List.pairwise_cons.mp hs with ⟨hr, hrs⟩
    by_cases hrx : r.msd_idx = x.msd_idx
    · rw [List.find?_cons_of_pos _ (by simpa using hrx)] at hfind
      have hfind : r = x := by simpa using hfind
      subst hfind
      rcases List.mem_cons.mp hs' with rfl | hs'
      · exact optLE_total (key s) (key s) |>.elim id id
      · exact hr s hs'
    · rw [List.find?_cons_of_neg _ (by simpa using hrx)] at hfind
      rcases List.mem_cons.mp hs' with rfl | hs'
      · exact absurd hidx hrx
      · exact ih hrs hs' hfind

/-! ### Characterisation of the candidate generators -/

/-- Membership characterisation of `perform_spatial_matching`: exactly the
pairs of base and aux rows within the distance limit (inclusive). -/
theorem spatial_pair_mem (dist : MsdRow → LmdRow → Int) (msd : List MsdRow)
    (lmd : List LmdRow) (maxDist : Int) (p : PairRow) :
    p ∈ (perform_spatial_matching dist msd lmd maxDist).rows ↔
      ∃ m ∈ msd, ∃ l ∈ lmd, dist m l ≤ maxDist ∧ p = mkSpatialPair dist m l := by
  simp only [perform_spatial_matching, List.mem_flatMap, List.mem_map]
  constructor
  · rintro ⟨m, hm, l, hl, rfl⟩
    have hl' := (stableSortBy_perm _ _).mem_iff.mp hl
    rcases List.mem_filter.mp hl' with ⟨hmem, hd⟩
    exact ⟨m, hm, l, hmem, by simpa using hd, rfl⟩
  · rintro ⟨m, hm, l, hl, hd, rfl⟩
    refine ⟨m, hm, l, ?_, rfl⟩
    exact (stableSortBy_perm _ _).mem_iff.mpr
      (List.mem_filter.mpr ⟨hl, by simpa using hd⟩)

/-- Membership characterisation of `perform_road_based_matching`. -/
theorem road_pair_mem (msd : List MsdRow) (lmd : List LmdRow) (p : PairRow) :
    p ∈ (perform_road_based_matching msd lmd).rows ↔
      ∃ l ∈ lmd, ∃ m ∈ msd, ∃ s e : Int,
        l.startChainKm = some s ∧ l.endChainKm = some e ∧
        m.road_id = l.road_id ∧ m.region_id = l.region_id ∧
        s * 1000 ≤ m.Chain ∧ m.Chain ≤ e * 1000 ∧ p = mkRoadPair m l := by
  simp only [perform_road_based_matching, List.mem_flatMap]
  constructor
  · rintro ⟨l, hl, hp⟩
    rcases hs : l.startChainKm with _ | s
    · rw [hs] at hp; simp at hp
    rcases he : l.endChainKm with _ | e
    · rw [hs, he] at hp; simp at hp
    rw [hs, he] at hp
    simp only [List.mem_map] at hp
    rcases hp with ⟨m, hm, rfl⟩
    rcases List.mem_filter.mp hm with ⟨hmem, hcond⟩
    simp only [roadKeyMatches, Bool.and_eq_true, beq_iff_eq, decide_eq_true_eq] at hcond
    exact ⟨l, hl, m, hmem, s, e, hs, he, hcond.1.1.1, hcond.1.1.2, hcond.1.2, hcond.2, rfl⟩
  · rintro ⟨l, hl, m, hm, s, e, hs, he, hrid, hreg, h1, h2, rfl⟩
    refine ⟨l, hl, ?_⟩
    rw [hs, he]
    simp only [List.mem_map]
    refine ⟨m, List.mem_filter.mpr ⟨hm, ?_⟩, rfl⟩
    simp [roadKeyMatches, hrid, hreg, h1, h2]

/-! ### Lemmas about filtering and selection -/

/-- Helper: the best-match table never repeats an `msd_idx`. -/
theorem fs_matches_nodup (df : PairsDF) (maxT maxC : Int) (et er es : Bool) :
    ((filter_and_select_matches df maxT maxC et er es).map PairRow.msd_idx).Nodup := by
  unfold filter_and_select_matches
  cases sortKeyFn df et er es with
  | none => exact groupByFirst_keys_nodup _
  | some key => exact groupByFirst_keys_nodup _

/-- Helper: the size of the best-match table is the number of distinct base
ids among the filtered candidate pairs. -/
theorem fs_length (df : PairsDF) (maxT maxC : Int) (et er es : Bool) :
    (filter_and_select_matches df maxT maxC et er es).length =
      ((filterRows df maxT maxC et er es).map PairRow.msd_idx).toFinset.card := by
  unfold filter_and_select_matches
  cases sortKeyFn df et er es with
  | none => exact groupByFirst_length _
  | some key =>
    rw [groupByFirst_length]
    congr 1
    exact List.toFinset_eq_of_perm _ _ ((stableSortBy_perm _ _).map _)

/-- Helper: rows selected as best matches are filtered candidate rows. -/
theorem fs_matches_subset {df : PairsDF} {maxT maxC : Int} {et er es : Bool}
    {r : PairRow} (h : r ∈ filter_and_select_matches df maxT maxC et er es) :
    r ∈ filterRows df maxT maxC et er es := by
  unfold filter_and_select_matches at h
  cases hk : sortKeyFn df et er es with
  | none => rw [hk] at h; exact groupByFirst_mem h
  | some key =>
    rw [hk] at h
    exact (stableSortBy_perm _ _).mem_iff.mp (groupByFirst_mem h)

/-! ### Claim C2 -/

/-- Claim C2: for every candidate-pair input, the best-match selection stage
assigns at most one aux id per base id: the table returned by
`filter_and_select_matches` contains each `msd_idx` at most once (never two
different aux ids chosen as best for the same base id). -/
theorem best_match_unique_per_base (df : PairsDF) (maxT maxC : Int)
    (et er es : Bool) :
    ((filter_and_select_matches df maxT maxC et er es).map PairRow.msd_idx).Nodup :=
  fs_matches_nodup df maxT maxC et er es

/-! ### Claim C5 -/

/-- Claim C5: in road-segment matching a candidate pair is emitted iff
`road_id` and `region_id` match exactly and the base chainage lies within
`[start_chainage, end_chainage]` inclusive after converting the aux start/end
chainage from kilometers to meters (× 1000); an aux record whose start/end
chainage fails to parse (`none`) emits no pair but does not disturb the rest
of the run (the function is total and processes all other records). -/
theorem road_segment_containment (msd : List MsdRow) (lmd : List LmdRow)
    (p : PairRow) :
    p ∈ (perform_road_based_matching msd lmd).rows ↔
      ∃ l ∈ lmd, ∃ m ∈ msd, ∃ s e : Int,
        l.startChainKm = some s ∧ l.endChainKm = some e ∧
        m.road_id = l.road_id ∧ m.region_id = l.region_id ∧
        s * 1000 ≤ m.Chain ∧ m.Chain ≤ e * 1000 ∧ p = mkRoadPair m l :=
  road_pair_mem msd lmd p

/-- Base row used by the C5 witness. -/
def C5m : MsdRow :=
  { msd_idx := 0, Lane := some "L1", Time := none, Chain := 500,
    RoadName := some "A", road_id := some "7", region_id := some "X" }

/-- Aux rows used by the C5 witness: one matching segment record and one
with malformed chainage that is skipped. -/
def C5l : LmdRow :=
  { lmd_idx := 0, Lane := some "L1", Lanes := some "ALL", Time := none,
    Chain := 0, RoadName := some "A", road_id := some "7",
    region_id := some "X", startChainKm := some 0, endChainKm := some 1 }

/-- Second aux row for the C5 witness, with unparseable start chainage. -/
def C5lBad : LmdRow :=
  { lmd_idx := 1, Lane := some "L1", Lanes := some "ALL", Time := none,
    Chain := 0, RoadName := some "A", road_id := some "7",
    region_id := some "X", startChainKm := none, endChainKm := some 1 }

/-- Witness for C5: the in-range pair is emitted (base chainage 500 m lies in
[0 km, 1 km] = [0 m, 1000 m]), while the malformed record contributes no
pair and does not abort the run. -/
theorem road_segment_containment_witness :
    mkRoadPair C5m C5l ∈ (perform_road_based_matching [C5m] [C5l, C5lBad]).rows ∧
    ¬ mkRoadPair C5m C5lBad ∈ (perform_road_based_matching [C5m] [C5l, C5lBad]).rows := by
  constructor
  · exact (road_segment_containment [C5m] [C5l, C5lBad] _).mpr
      ⟨C5l, by decide, C5m, by decide, 0, 1, by decide, by decide, by decide,
        by decide, by decide, by decide, rfl⟩
  · decide

/-! ### Claim C10 -/

/-- Claim C10: in road-segment matching the aux-side lane compared by the
lane criterion is the raw `Lanes` column: lane normalisation only rewrites
the `Lane` field (leaving `Lanes` untouched), preparation keeps each
surviving row's `Lanes` exactly as in the raw data, and every road-segment
candidate carries the `Lanes` value of its aux record (which is how the
`"ALL"` sentinel reaches the filter). -/
theorem road_pairs_carry_raw_lanes :
    (∀ r : LmdRow, (normalizeLaneRow r).Lanes = r.Lanes) ∧
    (∀ raws : List LmdRow, ∀ r ∈ prepare_lmd_lane raws,
        ∃ raw ∈ raws, r = normalizeLaneRow raw ∧ r.Lanes = raw.Lanes) ∧
    (∀ (msd : List MsdRow) (lmd : List LmdRow) (p : PairRow),
        p ∈ (perform_road_based_matching msd lmd).rows →
        ∃ l ∈ lmd, p.lmd_idx = l.lmd_idx ∧ p.Lane_lmd = l.Lanes) := by
  refine ⟨fun r => rfl, ?_, ?_⟩
  · intro raws r hr
    rcases List.mem_filter.mp hr with ⟨hmem, _⟩
    rcases List.mem_map.mp hmem with ⟨raw, hraw, rfl⟩
    exact ⟨raw, hraw, rfl, rfl⟩
  · intro msd lmd p hp
    rcases (road_pair_mem msd lmd p).mp hp with ⟨l, hl, m, _, _, _, _, _, _, _, _, _, rfl⟩
    exact ⟨l, hl, rfl, rfl⟩

/-- Raw aux row for the C10 witness: `Lane` is the raw value "1" which
normalisation maps to "L1", while `Lanes` holds the sentinel "ALL" that no
normalisation or vocabulary filtering ever touches. -/
def C10raw : LmdRow :=
  { lmd_idx := 0, Lane := some "1", Lanes := some "ALL", Time := none,
    Chain := 0, RoadName := some "A", road_id := some "7",
    region_id := some "X", startChainKm := some 0, endChainKm := some 1 }

/-- Base row for the C10 witness. -/
def C10m : MsdRow :=
  { msd_idx := 0, Lane := some "L1", Time := none, Chain := 500,
    RoadName := some "A", road_id := some "7", region_id := some "X" }

/-- Witness for C10: after preparation the row's `Lane` was normalised to
"L1" but its `Lanes` is still the raw "ALL", and the road-segment candidate
built from it carries exactly that raw label. -/
theorem road_pairs_carry_raw_lanes_witness :
    (∃ raw ∈ [C10raw], normalizeLaneRow C10raw = normalizeLaneRow raw ∧
        (normalizeLaneRow C10raw).Lanes = raw.Lanes) ∧
    (∃ l ∈ prepare_lmd_lane [C10raw],
        (mkRoadPair C10m (normalizeLaneRow C10raw)).lmd_idx = l.lmd_idx ∧
        (mkRoadPair C10m (normalizeLaneRow C10raw)).Lane_lmd = l.Lanes) := by
  constructor
  · rcases road_pairs_carry_raw_lanes.2.1 [C10raw] (normalizeLaneRow C10raw)
      (by decide) with ⟨raw, hraw, h1, h2⟩
    exact ⟨raw, hraw, by rw [h1], h2⟩
  · exact road_pairs_carry_raw_lanes.2.2 [C10m] (prepare_lmd_lane [C10raw])
      (mkRoadPair C10m (normalizeLaneRow C10raw)) (by decide)

/-! ### Claim C8 -/

/-- Counterexample to claim C8: with the cartesian strategy requested
(spatial disabled, road criterion off), 5000 × 3000 = 15,000,000 pairs above
the 10,000,000 guard, no coordinates and no road-matching columns, the worker
still chooses the full cartesian product; no configuration error is ever
raised. -/
theorem cartesian_guard_no_error :
    chooseStrategy false false false false 5000 3000 = Strategy.cartesianPairs := by
  decide

/-- Claim C8 as amended: when a non-spatial run would exceed the
10,000,000-pair guard, the worker substitutes the spatial strategy whenever
coordinates exist; when they do not, it falls back to road-based matching if
the road columns exist, otherwise it still materialises the pairs (grouped by
road/lane when the road criterion is enabled, else the full cartesian
product) — it never rejects with a configuration error. -/
theorem cartesian_guard_behaviour (er hasRoadCols : Bool) (nm nl : Nat)
    (hbig : 10000000 < nm * nl) :
    chooseStrategy false er true hasRoadCols nm nl = Strategy.spatial ∧
    chooseStrategy false er false hasRoadCols nm nl =
      (if hasRoadCols then Strategy.roadBased
       else if er then Strategy.roadGroupedPairs
       else Strategy.cartesianPairs) := by
  unfold chooseStrategy
  simp only [Bool.not_false, Bool.true_and, Bool.false_and, Bool.and_false,
    Bool.and_true, Bool.false_or, Bool.or_false, decide_eq_true_eq]
  constructor
  · simp [hbig]
  · cases hasRoadCols <;> cases er <;> simp [hbig]

/-- Witness for C8 at the spec's own scenario sizes (5000 × 3000):
coordinates present forces the spatial substitution; coordinates absent with
no road columns and road criterion off yields the cartesian product rather
than an error. -/
theorem cartesian_guard_behaviour_witness :
    chooseStrategy false false true false 5000 3000 = Strategy.spatial ∧
    chooseStrategy false false false false 5000 3000 = Strategy.cartesianPairs :=
  cartesian_guard_behaviour false false 5000 3000 (by decide)

/-! ### Claim C4 -/

/-- The contract of `DataFrame.sort(column)` with the default
`maintain_order=False`: any permutation of the input that is sorted on the
key is an admissible outcome; ties carry no ordering guarantee. -/
def UnstableSortOutcome (key : PairRow → Option Int)
    (out inp : List PairRow) : Prop :=
  out.Perm inp ∧ out.Pairwise (fun a b => optLE (key a) (key b) = true)

/-- First tied candidate for C4 (aux id 0, time_diff 2 s). -/
def C4r0 : PairRow :=
  { msd_idx := 0, lmd_idx := 0, Lane_msd := some "L1", Lane_lmd := some "L1",
    Time_msd := some 0, Time_lmd := some 2, Chain_msd := 0, Chain_lmd := 0,
    RoadName_msd := some "A", RoadName_lmd := some "A",
    spatial_dist_m := some 1 }

/-- Second tied candidate for C4 (aux id 1, also time_diff 2 s). -/
def C4r1 : PairRow :=
  { msd_idx := 0, lmd_idx := 1, Lane_msd := some "L1", Lane_lmd := some "L1",
    Time_msd := some 0, Time_lmd := some (-2), Chain_msd := 0, Chain_lmd := 0,
    RoadName_msd := some "A", RoadName_lmd := some "A",
    spatial_dist_m := some 2 }

/-- The candidate frame holding the two tied candidates of C4. -/
def C4df : PairsDF := { hasSpatialCol := true, rows := [C4r0, C4r1] }

/-- Claim C4 fails on the code: `filter_and_select_matches` sorts with
polars' default `maintain_order=False` and groups with an unordered
`group_by`, which only guarantee a sorted permutation.  For two candidates of
the same base id tied on the chosen ranking key (`time_diff`, both 2 s), both
orders of the tied rows are admissible sort outcomes of the filtered frame,
and they select different aux ids for base id 0 — so re-runs are not
guaranteed to be byte-identical and ties are not guaranteed to resolve to the
first candidate encountered. -/
theorem sort_tie_nondeterminism :
    sortKeyFn C4df true true true = some time_diff ∧
    UnstableSortOutcome time_diff [C4r0, C4r1]
      (filterRows C4df 10 5 true true true) ∧
    UnstableSortOutcome time_diff [C4r1, C4r0]
      (filterRows C4df 10 5 true true true) ∧
    groupByFirst [C4r0, C4r1] ≠ groupByFirst [C4r1, C4r0] := by
  refine ⟨rfl, ⟨by decide, by decide⟩, ⟨by decide, by decide⟩, by decide⟩

/-- Kleene equality of nullable strings is true exactly when both sides hold
the same string. -/
theorem optEqS_eq_some_true {a b : Option String} :
    optEqS a b = some true ↔ ∃ s, a = some s ∧ b = some s := by
  rcases a with _ | x <;> rcases b with _ | y <;> simp [optEqS]
  exact ⟨Eq.symm, Eq.symm⟩

/-- Kleene disjunction is true exactly when one disjunct is true. -/
theorem orK_eq_some_true {a b : Option Bool} :
    orK a b = some true ↔ a = some true ∨ b = some true := by
  rcases a with _ | a2 <;> rcases b with _ | b2
  · simp [orK]
  · cases b2 <;> simp [orK]
  · cases a2 <;> simp [orK]
  · cases a2 <;> cases b2 <;> simp [orK]

/-! ### Claim C6 -/

/-- Claim C6: the lane criterion passes a pair exactly when the two lanes are
equal non-null strings, or — with the road criterion enabled, as it is
whenever road-segment matching is active — when the aux lane is the sentinel
`"ALL"` (which then matches any base lane); and candidates produced by the
spatial strategy from a prepared aux table can never carry `"ALL"` as lane,
because preparation restricts the `Lane` column to the `VALID_LANES`
vocabulary, so exact equality is what remains for them. -/
theorem lane_criterion_exact_or_all :
    (∀ (er : Bool) (r : PairRow), laneCond er r = some true ↔
        ((er = true ∧ r.Lane_lmd = some "ALL") ∨
          (∃ s, r.Lane_msd = some s ∧ r.Lane_lmd = some s))) ∧
    (∀ (dist : MsdRow → LmdRow → Int) (msd : List MsdRow)
        (raws : List LmdRow) (maxDist : Int) (p : PairRow),
        p ∈ (perform_spatial_matching dist msd (prepare_lmd_lane raws) maxDist).rows →
        p.Lane_lmd ≠ some "ALL") := by
  constructor
  · intro er r
    cases er with
    | false => simp [laneCond, optEqS_eq_some_true]
    | true => simp [laneCond, orK_eq_some_true, optEqS_eq_some_true]
  · intro dist msd raws maxDist p hp hall
    rcases (spatial_pair_mem dist msd (prepare_lmd_lane raws) maxDist p).mp hp
      with ⟨m, _, l, hl, _, rfl⟩
    rcases List.mem_filter.mp hl with ⟨_, hvalid⟩
    have : l.Lane = some "ALL" := hall
    rw [this] at hvalid
    simp [laneIsValid, VALID_LANES] at hvalid

/-- A road-based candidate row for the C6 witness, aux lane `"ALL"`. -/
def C6allRow : PairRow :=
  { msd_idx := 0, lmd_idx := 0, Lane_msd := some "R1", Lane_lmd := some "ALL",
    Time_msd := none, Time_lmd := none, Chain_msd := 0, Chain_lmd := 0,
    RoadName_msd := some "A", RoadName_lmd := some "A",
    spatial_dist_m := none }

/-- Base row for the C6 witness. -/
def C6m : MsdRow :=
  { msd_idx := 0, Lane := some "L1", Time := none, Chain := 0,
    RoadName := some "A", road_id := none, region_id := none }

/-- Raw aux row for the C6 witness, lane "1" (normalised to "L1"). -/
def C6raw : LmdRow :=
  { lmd_idx := 0, Lane := some "1", Lanes := some "ALL", Time := none,
    Chain := 0, RoadName := some "A", road_id := none, region_id := none,
    startChainKm := none, endChainKm := none }

/-- Constant 5 m distance function for the C6 witness. -/
def C6dist : MsdRow → LmdRow → Int := fun _ _ => 5

/-- Witness for C6: with the road criterion on, aux lane `"ALL"` passes the
lane condition against base lane "R1"; and a spatial candidate built from the
prepared aux table cannot carry lane `"ALL"`. -/
theorem lane_criterion_exact_or_all_witness :
    laneCond true C6allRow = some true ∧
    (mkSpatialPair C6dist C6m (normalizeLaneRow C6raw)).Lane_lmd ≠ some "ALL" := by
  constructor
  · exact (lane_criterion_exact_or_all.1 true C6allRow).mpr (Or.inl ⟨rfl, rfl⟩)
  · exact lane_criterion_exact_or_all.2 C6dist [C6m] [C6raw] 100 _ (by decide)

/-! ### Lemmas about output assembly -/

/-- If a list has pairwise-distinct keys, filtering it for one key leaves at
most one element. -/
theorem filter_beq_len_le_one {β : Type} (keyf : β → Nat) {l : List β}
    (h : (l.map keyf).Nodup) (k : Nat) :
    (l.filter (fun b => keyf b == k)).length ≤ 1 := by
  induction l with
  | nil => simp
  | cons b bs ih =>
    rw [List.map_cons, List.nodup_cons] at h
    by_cases hb : (keyf b == k) = true
    · have hnil : bs.filter (fun x => keyf x == k) = [] := by
        rw [List.filter_eq_nil_iff]
        intro x hx hkx
        refine h.1 ?_
        have h1 : keyf x = k := by simpa using hkx
        have h2 : keyf b = k := by simpa using hb
        rw [h2, ← h1]
        exact List.mem_map_of_mem _ hx
      simp [List.filter_cons, hb, hnil]
    · have hb2 : (keyf b == k) = false := by simpa using hb
      simp only [List.filter_cons, hb2, Bool.false_eq_true, if_false]
      exact ih h.2

/-- A list of length at most one is empty or a singleton. -/
theorem length_le_one_cases {β : Type} {l : List β} (h : l.length ≤ 1) :
    l = [] ∨ ∃ b, l = [b] := by
  cases l with
  | nil => exact Or.inl rfl
  | cons b bs =>
    cases bs with
    | nil => exact Or.inr ⟨b, rfl⟩
    | cons c cs => simp at h

/-- With unique best-match and aux keys, the assembled output lists exactly
the base rows, in order. -/
theorem create_output_base_map {best : List PairRow} {lmd : List LmdRow}
    (hb : (best.map PairRow.msd_idx).Nodup)
    (hl : (lmd.map LmdRow.lmd_idx).Nodup) (msd : List MsdRow) :
    (create_output_dataframe best msd lmd).map OutputRow.base = msd := by
  induction msd with
  | nil => simp [create_output_dataframe]
  | cons m ms ih =>
    unfold create_output_dataframe
    rw [List.flatMap_cons, List.map_append]
    have hblock :
        (match best.filter (fun b => b.msd_idx == m.msd_idx) with
          | [] => [{ base := m, matched := none, lmdPayload := none }]
          | bs => bs.flatMap (fun b =>
              match lmd.filter (fun l => l.lmd_idx == b.lmd_idx) with
              | [] => [{ base := m, matched := some b, lmdPayload := none }]
              | ls => ls.map (fun l =>
                  { base := m, matched := some b, lmdPayload := some l })) :
          List OutputRow).map OutputRow.base = [m] := by
      rcases length_le_one_cases
          (filter_beq_len_le_one PairRow.msd_idx hb m.msd_idx) with hnil | ⟨b, hone⟩
      · rw [hnil]
        rfl
      · rw [hone]
        rcases length_le_one_cases
            (filter_beq_len_le_one LmdRow.lmd_idx hl b.lmd_idx) with hnil2 | ⟨l, hone2⟩
        · simp only [List.flatMap_cons, List.flatMap_nil, List.append_nil]
          rw [hnil2]
          rfl
        · simp only [List.flatMap_cons, List.flatMap_nil, List.append_nil]
          rw [hone2]
          rfl
    rw [hblock]
    unfold create_output_dataframe at ih
    rw [ih]
    rfl

/-- Output rows without a match carry no auxiliary payload (the second left
join is on the null `lmd_idx`, which matches nothing). -/
theorem create_output_unmatched_no_payload {best : List PairRow}
    {msd : List MsdRow} {lmd : List LmdRow} {o : OutputRow}
    (ho : o ∈ create_output_dataframe best msd lmd)
    (hm : o.matched = none) : o.lmdPayload = none := by
  rcases List.mem_flatMap.mp ho with ⟨m, _, hblock⟩
  rcases hfb : best.filter (fun b => b.msd_idx == m.msd_idx) with _ | ⟨b, bs⟩
  · rw [hfb] at hblock
    simp only [List.mem_singleton] at hblock
    rw [hblock]
  · rw [hfb] at hblock
    rcases List.mem_flatMap.mp hblock with ⟨b2, _, hinner⟩
    rcases hfl : lmd.filter (fun l => l.lmd_idx == b2.lmd_idx) with _ | ⟨l, ls⟩
    · rw [hfl] at hinner
      simp only [List.mem_singleton] at hinner
      rw [hinner] at hm
      simp at hm
    · rw [hfl] at hinner
      rcases List.mem_map.mp hinner with ⟨l2, _, rfl⟩
      simp at hm

/-! ### Claim C1 -/

/-- Base row for the C1 counterexample. -/
def C1m : MsdRow :=
  { msd_idx := 0, Lane := some "L1", Time := some 0, Chain := 0,
    RoadName := some "A", road_id := none, region_id := none }

/-- Aux row for the C1 counterexample. -/
def C1l : LmdRow :=
  { lmd_idx := 0, Lane := some "L1", Lanes := none, Time := some 0,
    Chain := 0, RoadName := some "A", road_id := none, region_id := none,
    startChainKm := none, endChainKm := none }

/-- A distance function putting the aux row 1000 m away (beyond the 100 m
radius), so that zero candidates survive. -/
def C1far : MsdRow → LmdRow → Int := fun _ _ => 1000

/-- Counterexample to claim C1: with zero candidates overall the pipeline
returns no output at all (`merge_msd_lmd` hits its early `return`), instead
of the claimed full base table with null auxiliary columns — the base row is
absent from any output. -/
theorem no_candidates_returns_no_table :
    merge_msd_lmd C1far [C1m] [C1l] 10 5 100 = none := by decide

/-- Claim C1 as amended: whenever the pipeline does produce an output (at
least one candidate pair exists and at least one survives filtering), the
output has exactly one row per base row, in base order — so its id multiset
equals the base id multiset — and rows without a match carry null auxiliary
columns; but with zero candidates (or zero surviving pairs) the pipeline
returns early with no output instead of the full base table. -/
theorem output_preserves_base_rows (dist : MsdRow → LmdRow → Int)
    (msd : List MsdRow) (lmd : List LmdRow) (maxT maxC maxDist : Int)
    (out : List OutputRow)
    (hl : (lmd.map LmdRow.lmd_idx).Nodup)
    (h : merge_msd_lmd dist msd lmd maxT maxC maxDist = some out) :
    out.length = msd.length ∧
    out.map (fun o => o.base.msd_idx) = msd.map MsdRow.msd_idx ∧
    ∀ o ∈ out, o.matched = none → o.lmdPayload = none := by
  unfold merge_msd_lmd at h
  by_cases h1 : (perform_spatial_matching dist msd lmd maxDist).rows.isEmpty
  · rw [if_pos h1] at h
    exact absurd h (by simp)
  · rw [if_neg h1] at h
    by_cases h2 : (filter_and_select_matches
        (perform_spatial_matching dist msd lmd maxDist) maxT maxC true true true).isEmpty
    · rw [if_pos h2] at h
      exact absurd h (by simp)
    · rw [if_neg h2] at h
      have hout : out = create_output_dataframe
          (filter_and_select_matches (perform_spatial_matching dist msd lmd maxDist)
            maxT maxC true true true) msd lmd := by
        exact (Option.some_inj.mp h).symm
      have hb := fs_matches_nodup
        (perform_spatial_matching dist msd lmd maxDist) maxT maxC true true true
      have hbase := create_output_base_map hb hl msd
      refine ⟨?_, ?_, ?_⟩
      · have := congrArg List.length hbase
        rw [List.length_map] at this
        rw [hout]
        exact this
      · rw [hout, show (fun o => o.base.msd_idx) =
          MsdRow.msd_idx ∘ OutputRow.base from rfl, ← List.map_map, hbase]
      · intro o ho hm
        rw [hout] at ho
        exact create_output_unmatched_no_payload ho hm

/-- Base row for the C1 witness run. -/
def C1wm : MsdRow :=
  { msd_idx := 0, Lane := some "L1", Time := some 0, Chain := 0,
    RoadName := some "A", road_id := none, region_id := none }

/-- Aux row for the C1 witness run, 5 m away and passing every filter. -/
def C1wl : LmdRow :=
  { lmd_idx := 0, Lane := some "L1", Lanes := none, Time := some 0,
    Chain := 0, RoadName := some "A", road_id := none, region_id := none,
    startChainKm := none, endChainKm := none }

/-- Constant 5 m distance function for the C1 witness run. -/
def C1wdist : MsdRow → LmdRow → Int := fun _ _ => 5

/-- The output the C1 witness run produces. -/
def C1wout : List OutputRow :=
  [{ base := C1wm, matched := some (mkSpatialPair C1wdist C1wm C1wl),
     lmdPayload := some C1wl }]

/-- Witness for the amended C1: a successful concrete run produces one output
row per base row with matching ids. -/
theorem output_preserves_base_rows_witness :
    merge_msd_lmd C1wdist [C1wm] [C1wl] 10 5 100 = some C1wout ∧
    C1wout.length = [C1wm].length ∧
    C1wout.map (fun o => o.base.msd_idx) = [C1wm].map MsdRow.msd_idx := by
  have h : merge_msd_lmd C1wdist [C1wm] [C1wl] 10 5 100 = some C1wout := by decide
  have h2 := output_preserves_base_rows C1wdist [C1wm] [C1wl] 10 5 100 C1wout
    (by decide) h
  exact ⟨h, h2.1, h2.2.1⟩

/-! ### Claim C7 -/

/-- The time condition is true exactly when both timestamps are present and
their absolute difference is within the threshold. -/
theorem timeCond_eq_some_true {maxT : Int} {r : PairRow} :
    timeCond maxT r = some true ↔
      ∃ t1 t2, r.Time_msd = some t1 ∧ r.Time_lmd = some t2 ∧ |t1 - t2| ≤ maxT := by
  rcases h1 : r.Time_msd with _ | t1 <;> rcases h2 : r.Time_lmd with _ | t2 <;>
    simp [timeCond, time_diff, h1, h2]

/-- Splitting the row filter of a time-enabled run into its time condition
and the remaining conditions (`keepRow` with the time column absent). -/
theorem keepRow_time_split (hvt er es : Bool) (maxT maxC : Int) (r : PairRow) :
    keepRow hvt true er es maxT maxC r = true ↔
      (keepRow false true er es maxT maxC r = true ∧
        (hvt = false ∨ timeCond maxT r = some true)) := by
  cases hvt with
  | false => simp
  | true =>
    cases er <;> cases es <;>
      simp [keepRow, rowConds, List.all_append, and_assoc] <;> tauto

/-- A pair row used in the C7 counterexample: valid timestamps, passes. -/
def C7r0 : PairRow :=
  { msd_idx := 0, lmd_idx := 0, Lane_msd := some "L1", Lane_lmd := some "L1",
    Time_msd := some 0, Time_lmd := some 0, Chain_msd := 0, Chain_lmd := 0,
    RoadName_msd := some "A", RoadName_lmd := some "A",
    spatial_dist_m := some 1 }

/-- A pair row used in the C7 counterexample: its base side has no timestamp
while other rows of the batch do. -/
def C7r1 : PairRow :=
  { msd_idx := 1, lmd_idx := 1, Lane_msd := some "L1", Lane_lmd := some "L1",
    Time_msd := none, Time_lmd := some 0, Chain_msd := 0, Chain_lmd := 0,
    RoadName_msd := some "A", RoadName_lmd := some "A",
    spatial_dist_m := some 1 }

/-- The C7 counterexample frame: a mixed batch, some timestamps present. -/
def C7df : PairsDF := { hasSpatialCol := true, rows := [C7r0, C7r1] }

/-- Counterexample to claim C7: in a batch where some rows do carry
timestamps, `has_valid_time_data` holds, so the time filter applies to every
pair; the pair whose base timestamp is null gets a null `time_diff`, the
comparison is Kleene-null, and the row is dropped — base id 1 is excluded
instead of passing the time filter and falling through to spatial ranking. -/
theorem null_timestamp_pair_dropped :
    has_valid_time_data C7df = true ∧
    C7r1 ∈ C7df.rows ∧
    keepRow false true false true 10 5 C7r1 = true ∧
    (filter_and_select_matches C7df 10 5 true false true).map PairRow.msd_idx = [0] := by
  exact ⟨rfl, by decide, by decide, by decide⟩

/-- Claim C7 as amended: with the time criterion enabled, a pair survives
filtering iff it passes the non-time conditions and (a) the batch lacks valid
timestamps on one side entirely (`has_valid_time_data` false — the filter is
skipped), or (b) both its timestamps are present with
`|base.timestamp - aux.timestamp| ≤ max_time_diff`.  A single pair with a
missing timestamp inside a batch that has some valid timestamps is excluded,
not passed; only the all-null case is skipped (after preparation each table
is all-null or all-non-null, so the mixed case cannot arise from the full
pipeline). -/
theorem time_filter_skip_or_apply (df : PairsDF) (maxT maxC : Int)
    (er es : Bool) (r : PairRow) :
    r ∈ filterRows df maxT maxC true er es ↔
      (r ∈ df.rows ∧ keepRow false true er es maxT maxC r = true ∧
        (has_valid_time_data df = false ∨
          ∃ t1 t2, r.Time_msd = some t1 ∧ r.Time_lmd = some t2 ∧
            |t1 - t2| ≤ maxT)) := by
  rw [filterRows, List.mem_filter,
    keepRow_time_split (has_valid_time_data df) er es maxT maxC r]
  simp only [timeCond_eq_some_true, and_assoc]

/-- The C7 witness pair: no timestamps anywhere in the batch. -/
def C7wr : PairRow :=
  { msd_idx := 0, lmd_idx := 0, Lane_msd := some "L1", Lane_lmd := some "L1",
    Time_msd := none, Time_lmd := none, Chain_msd := 0, Chain_lmd := 0,
    RoadName_msd := some "A", RoadName_lmd := some "A",
    spatial_dist_m := some 1 }

/-- The C7 witness frame. -/
def C7wdf : PairsDF := { hasSpatialCol := true, rows := [C7wr] }

/-- Witness for the amended C7: when one side lacks timestamps for the whole
batch, the time filter is skipped and the pair survives on the remaining
criteria. -/
theorem time_filter_skip_or_apply_witness :
    C7wr ∈ filterRows C7wdf 10 5 true false true := by
  exact (time_filter_skip_or_apply C7wdf 10 5 false true C7wr).mpr
    ⟨by decide, by decide, Or.inl (by decide)⟩

/-! ### Claim C3 -/

/-- Claim C3: every selected best match is a surviving candidate and, for the
ranking key chosen by the fixed priority of `sortKeyFn` — `time_diff` if the
time criterion is enabled and the column is present, else `chainage_diff` if
the road criterion is enabled, else `spatial_dist_m` if the spatial criterion
is enabled and present — it minimises that key among the surviving candidates
of its base id; when no key applies, it is the first surviving candidate of
its base id in first-seen order. -/
theorem best_match_minimizes_priority_key (df : PairsDF) (maxT maxC : Int)
    (et er es : Bool) (r : PairRow)
    (hr : r ∈ filter_and_select_matches df maxT maxC et er es) :
    r ∈ filterRows df maxT maxC et er es ∧
    (match sortKeyFn df et er es with
     | some key => ∀ s ∈ filterRows df maxT maxC et er es,
         s.msd_idx = r.msd_idx → optLE (key r) (key s) = true
     | none => (filterRows df maxT maxC et er es).find?
         (fun s => s.msd_idx == r.msd_idx) = some r) := by
  refine ⟨fs_matches_subset hr, ?_⟩
  unfold filter_and_select_matches at hr
  cases hk : sortKeyFn df et er es with
  | none =>
    rw [hk] at hr
    simp only [hk]
    exact groupByFirstAux_find hr
  | some key =>
    rw [hk] at hr
    simp only [hk]
    intro s hs hsi
    have hsorted := stableSortBy_sorted
      (fun a b c h1 h2 => optLE_trans (key a) (key b) (key c) h1 h2)
      (fun a b => optLE_total (key a) (key b))
      (filterRows df maxT maxC et er es)
    have hs2 : s ∈ stableSortBy (fun a b => optLE (key a) (key b))
        (filterRows df maxT maxC et er es) :=
      (stableSortBy_perm _ _).mem_iff.mpr hs
    exact groupByFirst_min_of_sorted hsorted hr s hs2 hsi

/-- C3 witness candidate with `time_diff` 2 s (aux id 10). -/
def C3p10 : PairRow :=
  { msd_idx := 1, lmd_idx := 10, Lane_msd := some "L1", Lane_lmd := some "L1",
    Time_msd := some 0, Time_lmd := some 2, Chain_msd := 100, Chain_lmd := 102,
    RoadName_msd := some "A", RoadName_lmd := some "A",
    spatial_dist_m := some 1 }

/-- C3 witness candidate with `time_diff` 9 s (aux id 11). -/
def C3p11 : PairRow :=
  { msd_idx := 1, lmd_idx := 11, Lane_msd := some "L1", Lane_lmd := some "L1",
    Time_msd := some 0, Time_lmd := some 9, Chain_msd := 100, Chain_lmd := 104,
    RoadName_msd := some "A", RoadName_lmd := some "A",
    spatial_dist_m := some 2 }

/-- The C3 witness frame (the spec's worked scenario). -/
def C3df : PairsDF := { hasSpatialCol := true, rows := [C3p10, C3p11] }

/-- Witness for C3: with all criteria enabled and valid times, time-based
ranking selects aux id 10 (2 s diff beats 9 s diff): the selected row is a
surviving candidate minimising `time_diff` for base id 1. -/
theorem best_match_minimizes_priority_key_witness :
    C3p10 ∈ filter_and_select_matches C3df 10 5 true true true ∧
    C3p10 ∈ filterRows C3df 10 5 true true true ∧
    ∀ s ∈ filterRows C3df 10 5 true true true,
      s.msd_idx = C3p10.msd_idx →
        optLE (time_diff C3p10) (time_diff s) = true := by
  have hmem : C3p10 ∈ filter_and_select_matches C3df 10 5 true true true := by
    decide
  have h := best_match_minimizes_priority_key C3df 10 5 true true true C3p10 hmem
  exact ⟨hmem, h.1, h.2⟩

/-! ### Claim C9 -/

/-- Growing the radius only grows the candidate-pair set. -/
theorem spatial_mem_mono {dist : MsdRow → LmdRow → Int} {msd : List MsdRow}
    {lmd : List LmdRow} {r1 r2 : Int} (h12 : r1 ≤ r2) {p : PairRow}
    (hp : p ∈ (perform_spatial_matching dist msd lmd r1).rows) :
    p ∈ (perform_spatial_matching dist msd lmd r2).rows := by
  rcases (spatial_pair_mem dist msd lmd r1 p).mp hp with ⟨m, hm, l, hl, hd, rfl⟩
  exact (spatial_pair_mem dist msd lmd r2 _).mpr
    ⟨m, hm, l, hl, le_trans hd h12, rfl⟩

/-- If every base-side timestamp of the frame is null,
`has_valid_time_data` is false. -/
theorem hvt_false_of_msd_null {df : PairsDF}
    (h : ∀ p ∈ df.rows, p.Time_msd = none) :
    has_valid_time_data df = false := by
  unfold has_valid_time_data
  have hc : df.rows.countP (fun r => r.Time_msd.isNone) = df.rows.length :=
    List.countP_eq_length.mpr (fun a ha => by simp [h a ha])
  simp [hc]

/-- If every aux-side timestamp of the frame is null,
`has_valid_time_data` is false. -/
theorem hvt_false_of_lmd_null {df : PairsDF}
    (h : ∀ p ∈ df.rows, p.Time_lmd = none) :
    has_valid_time_data df = false := by
  unfold has_valid_time_data
  have hc : df.rows.countP (fun r => r.Time_lmd.isNone) = df.rows.length :=
    List.countP_eq_length.mpr (fun a ha => by simp [h a ha])
  simp [hc]

/-- If the frame is non-empty and no timestamp is null,
`has_valid_time_data` is true. -/
theorem hvt_true_of_no_null {df : PairsDF} (hne : df.rows ≠ [])
    (h1 : ∀ p ∈ df.rows, p.Time_msd ≠ none)
    (h2 : ∀ p ∈ df.rows, p.Time_lmd ≠ none) :
    has_valid_time_data df = true := by
  unfold has_valid_time_data
  have c1 : df.rows.countP (fun r => r.Time_msd.isNone) = 0 :=
    List.countP_eq_zero.mpr (fun a ha => by
      simp only [Option.isNone_iff_eq_none]
      intro hcon
      exact h1 a ha hcon)
  have c2 : df.rows.countP (fun r => r.Time_lmd.isNone) = 0 :=
    List.countP_eq_zero.mpr (fun a ha => by
      simp only [Option.isNone_iff_eq_none]
      intro hcon
      exact h2 a ha hcon)
  have hlen : 0 < df.rows.length := List.length_pos.mpr hne
  simp [c1, c2, hlen]

/-- The timestamps of a spatial candidate pair come from its source rows. -/
theorem spatial_rows_times {dist : MsdRow → LmdRow → Int} {msd : List MsdRow}
    {lmd : List LmdRow} {maxd : Int} {p : PairRow}
    (hp : p ∈ (perform_spatial_matching dist msd lmd maxd).rows) :
    (∃ m ∈ msd, p.Time_msd = m.Time) ∧ (∃ l ∈ lmd, p.Time_lmd = l.Time) := by
  rcases (spatial_pair_mem dist msd lmd maxd p).mp hp with ⟨m, hm, l, hl, _, rfl⟩
  exact ⟨⟨m, hm, rfl⟩, ⟨l, hl, rfl⟩⟩

/-- Claim C9: for fixed tables whose time columns are uniform (each table is
all-null or all-non-null, as preparation guarantees) and a fixed
configuration, increasing `max_spatial_dist` never decreases the number of
base rows that receive a match. -/
theorem spatial_radius_monotone (dist : MsdRow → LmdRow → Int)
    (msd : List MsdRow) (lmd : List LmdRow) (maxT maxC : Int)
    (et er es : Bool) (r1 r2 : Int) (h12 : r1 ≤ r2)
    (hmt : (∀ m ∈ msd, m.Time = none) ∨ (∀ m ∈ msd, m.Time ≠ none))
    (hlt : (∀ l ∈ lmd, l.Time = none) ∨ (∀ l ∈ lmd, l.Time ≠ none)) :
    (filter_and_select_matches (perform_spatial_matching dist msd lmd r1)
        maxT maxC et er es).length ≤
      (filter_and_select_matches (perform_spatial_matching dist msd lmd r2)
        maxT maxC et er es).length := by
  rw [fs_length, fs_length]
  rcases heq : (perform_spatial_matching dist msd lmd r1).rows with _ | ⟨p0, ps⟩
  · have hempty : filterRows (perform_spatial_matching dist msd lmd r1)
        maxT maxC et er es = [] := by
      unfold filterRows
      rw [heq]
      rfl
    simp [hempty]
  · have hsub : ∀ p ∈ (perform_spatial_matching dist msd lmd r1).rows,
        p ∈ (perform_spatial_matching dist msd lmd r2).rows :=
      fun p hp => spatial_mem_mono h12 hp
    have hne1 : (perform_spatial_matching dist msd lmd r1).rows ≠ [] := by
      rw [heq]
      simp
    have hne2 : (perform_spatial_matching dist msd lmd r2).rows ≠ [] := by
      intro h0
      have hp0 := hsub p0 (by rw [heq]; exact List.mem_cons_self _ _)
      rw [h0] at hp0
      simp at hp0
    have hhvt : has_valid_time_data (perform_spatial_matching dist msd lmd r1) =
        has_valid_time_data (perform_spatial_matching dist msd lmd r2) := by
      rcases hmt with hmt | hmt
      · rw [hvt_false_of_msd_null, hvt_false_of_msd_null]
        · intro p hp
          rcases (spatial_rows_times hp).1 with ⟨m, hm, he⟩
          rw [he]
          exact hmt m hm
        · intro p hp
          rcases (spatial_rows_times hp).1 with ⟨m, hm, he⟩
          rw [he]
          exact hmt m hm
      · rcases hlt with hlt | hlt
        · rw [hvt_false_of_lmd_null, hvt_false_of_lmd_null]
          · intro p hp
            rcases (spatial_rows_times hp).2 with ⟨l, hl, he⟩
            rw [he]
            exact hlt l hl
          · intro p hp
            rcases (spatial_rows_times hp).2 with ⟨l, hl, he⟩
            rw [he]
            exact hlt l hl
        · rw [hvt_true_of_no_null hne1, hvt_true_of_no_null hne2]
          · intro p hp
            rcases (spatial_rows_times hp).1 with ⟨m, hm, he⟩
            rw [he]
            exact hmt m hm
          · intro p hp
            rcases (spatial_rows_times hp).2 with ⟨l, hl, he⟩
            rw [he]
            exact hlt l hl
          · intro p hp
            rcases (spatial_rows_times hp).1 with ⟨m, hm, he⟩
            rw [he]
            exact hmt m hm
          · intro p hp
            rcases (spatial_rows_times hp).2 with ⟨l, hl, he⟩
            rw [he]
            exact hlt l hl
    apply Finset.card_le_card
    intro k hk
    rw [List.mem_toFinset] at hk
    rw [List.mem_toFinset]
    rcases List.mem_map.mp hk with ⟨p, hpf, rfl⟩
    rcases List.mem_filter.mp hpf with ⟨hpr, hkeep⟩
    refine List.mem_map_of_mem _ (List.mem_filter.mpr ⟨hsub p hpr, ?_⟩)
    rw [← hhvt]
    exact hkeep

/-- Base row for the C9 witness. -/
def C9m : MsdRow :=
  { msd_idx := 0, Lane := some "L1", Time := some 0, Chain := 0,
    RoadName := some "A", road_id := none, region_id := none }

/-- Aux row for the C9 witness. -/
def C9l : LmdRow :=
  { lmd_idx := 0, Lane := some "L1", Lanes := none, Time := some 0,
    Chain := 0, RoadName := some "A", road_id := none, region_id := none,
    startChainKm := none, endChainKm := none }

/-- Constant 50 m distance function for the C9 witness. -/
def C9dist : MsdRow → LmdRow → Int := fun _ _ => 50

/-- Witness for C9: radius 10 m (0 matches) versus radius 100 m (1 match). -/
theorem spatial_radius_monotone_witness :
    (filter_and_select_matches (perform_spatial_matching C9dist [C9m] [C9l] 10)
        10 5 true true true).length ≤
      (filter_and_select_matches (perform_spatial_matching C9dist [C9m] [C9l] 100)
        10 5 true true true).length := by
  exact spatial_radius_monotone C9dist [C9m] [C9l] 10 5 true true true 10 100
    (by decide) (Or.inr (by decide)) (Or.inr (by decide))

end SpatialMerge
